import Mathlib

/-!
Verification of the canary model-serving core of `app.py`
(class `CanaryModelService` and its endpoints).

The service state holds two model slots ("current" and "next"), each with
an optional loaded model together with the name and version under which it
was loaded, plus a routing probability.  Python floats are modelled as `ℚ`;
the external MLflow loader result of each `load_model` call is passed in as
an `Option Model` argument (`none` = the loader raised); the per-call
uniform draw of `random.random()` is passed in as a `ℚ` argument.
A predictor may reject its input, modelled as `Except`.
-/

namespace Canary

/-- An opaque loaded predictor: `predict(batch) -> labels`, which may
reject the input (shape mismatch, type error). -/
structure Model where
  predictor : List (List ℚ) → Except String (List ℤ)

/-- The mutable fields of `CanaryModelService`. -/
structure ServiceState where
  current_model : Option Model
  next_model : Option Model
  current_model_name : Option String
  current_model_version : Option String
  next_model_name : Option String
  next_model_version : Option String
  canary_probability : ℚ

/-- `CanaryModelService.__init__`: both slots empty, probability 1.0. -/
def initState : ServiceState :=
  { current_model := none
    next_model := none
    current_model_name := none
    current_model_version := none
    next_model_name := none
    next_model_version := none
    canary_probability := 1 }

/-- `CanaryModelService.load_model`: `res` is the outcome of
`mlflow.sklearn.load_model` (`none` if it raised, in which case the
`except` clause returns `False`).  On a successful load the target slot's
model, name and version are written together; an unknown target raises
`ValueError`, which the same `except` clause turns into `False` with no
state change. -/
def load_model (s : ServiceState) (res : Option Model)
    (model_name version target : String) : Bool × ServiceState :=
  match res with
  | none => (false, s)
  | some model =>
    if target = "current" then
      (true, { s with current_model := some model
                      current_model_name := some model_name
                      current_model_version := some version })
    else if target = "next" then
      (true, { s with next_model := some model
                      next_model_name := some model_name
                      next_model_version := some version })
    else
      (false, s)

/-- `CanaryModelService.load_initial_models`: load the same identity into
the "current" slot and then the "next" slot; report success only if both
loads succeeded.  `res1`, `res2` are the two loader outcomes. -/
def load_initial_models (s : ServiceState) (res1 res2 : Option Model)
    (model_name version : String) : Bool × ServiceState :=
  let r1 := load_model s res1 model_name version "current"
  let r2 := load_model r1.2 res2 model_name version "next"
  (r1.1 && r2.1, r2.2)

/-- `CanaryModelService.set_canary_probability`: accepts exactly
`0.0 <= probability <= 1.0`, otherwise returns `False` without touching
the state. -/
def set_canary_probability (s : ServiceState) (probability : ℚ) :
    Bool × ServiceState :=
  if 0 ≤ probability ∧ probability ≤ 1 then
    (true, { s with canary_probability := probability })
  else
    (false, s)

/-- `CanaryModelService.accept_next_model`: fails when the next slot is
empty; otherwise copies the next slot's model, name and version into the
current slot, leaving the next slot as it was. -/
def accept_next_model (s : ServiceState) : Bool × ServiceState :=
  match s.next_model with
  | none => (false, s)
  | some m =>
    (true, { s with current_model := some m
                    current_model_name := s.next_model_name
                    current_model_version := s.next_model_version })

/-- Python's rendering of an optional string inside an f-string
(`None` prints as `"None"`). -/
def optStr : Option String → String
  | none => "None"
  | some s => s

/-- The `model_used` label produced when the current slot serves:
`f"current ({name} v{version})"`. -/
def currentLabel (s : ServiceState) : String :=
  "current (" ++ optStr s.current_model_name ++ " v" ++
    optStr s.current_model_version ++ ")"

/-- The `model_used` label produced when the next slot serves:
`f"next ({name} v{version})"`. -/
def nextLabel (s : ServiceState) : String :=
  "next (" ++ optStr s.next_model_name ++ " v" ++
    optStr s.next_model_version ++ ")"

/-- Outcome of a `predict` call: the 400 "No current model loaded"
error, the 400 "Prediction error" (the predictor raised inside the
`try`), or a successful response with predictions and the
`model_used` label. -/
inductive PredictResult where
  | noModelLoaded : PredictResult
  | predictionError (cause : String) : PredictResult
  | ok (predictions : List ℤ) (model_used : String) : PredictResult
deriving DecidableEq

/-- Invoke one model's predictor inside the `try` of `predict`: a raised
exception becomes the "Prediction error" response. -/
def runModel (m : Model) (label : String) (features : List (List ℚ)) :
    PredictResult :=
  match m.predictor features with
  | Except.ok preds => PredictResult.ok preds label
  | Except.error e => PredictResult.predictionError ("Prediction error: " ++ e)

/-- `CanaryModelService.predict`: raises "No current model loaded" when the
current slot is empty (checked before anything else); otherwise draws
`use_current := r < canary_probability` and serves from the current model
when `use_current or next_model is None`, else from the next model.
The state is returned unchanged: the method assigns nothing. -/
def predict (s : ServiceState) (r : ℚ) (features : List (List ℚ)) :
    PredictResult × ServiceState :=
  match s.current_model with
  | none => (PredictResult.noModelLoaded, s)
  | some cm =>
    if r < s.canary_probability then
      (runModel cm (currentLabel s) features, s)
    else
      match s.next_model with
      | none => (runModel cm (currentLabel s) features, s)
      | some nm => (runModel nm (nextLabel s) features, s)

/-- The read-only snapshot the `/` , `/health` endpoints report. -/
structure StatusReport where
  current_model_loaded : Bool
  next_model_loaded : Bool
  current_name : Option String
  current_version : Option String
  next_name : Option String
  next_version : Option String
  canary_probability : ℚ

/-- `status`: the fields the root and `/health` endpoints read from the
service. -/
def status (s : ServiceState) : StatusReport :=
  { current_model_loaded := s.current_model.isSome
    next_model_loaded := s.next_model.isSome
    current_name := s.current_model_name
    current_version := s.current_model_version
    next_name := s.next_model_name
    next_version := s.next_model_version
    canary_probability := s.canary_probability }

/-- Modelled from the spec (section 4.2, `route_and_predict`), for
comparison with `predict`: 1. choose the slot by the draw (`current` iff
`r < p`); 2. read the chosen slot's handle; 3. if it is empty and the
chosen slot was "candidate", fall back to the current slot's handle;
4. fail with `NoModelLoaded` only if the handle is still empty;
5. invoke inference on the handle. -/
def route_and_predict_spec (s : ServiceState) (r : ℚ)
    (features : List (List ℚ)) : PredictResult :=
  if r < s.canary_probability then
    match s.current_model with
    | none => PredictResult.noModelLoaded
    | some h => runModel h (currentLabel s) features
  else
    match s.next_model with
    | some h => runModel h (nextLabel s) features
    | none =>
      match s.current_model with
      | none => PredictResult.noModelLoaded
      | some h => runModel h (currentLabel s) features

/-- One externally invokable operation, with the outcomes of any external
loader calls it makes carried as data. -/
inductive Op where
  | loadModelOp (res : Option Model) (model_name version target : String)
  | loadInitialOp (res1 res2 : Option Model) (model_name version : String)
  | acceptNextOp
  | setProbOp (p : ℚ)
  | predictOp (r : ℚ) (features : List (List ℚ))
  | statusOp

/-- The state after one operation. -/
def execOp (s : ServiceState) : Op → ServiceState
  | Op.loadModelOp res n v t => (load_model s res n v t).2
  | Op.loadInitialOp r1 r2 n v => (load_initial_models s r1 r2 n v).2
  | Op.acceptNextOp => (accept_next_model s).2
  | Op.setProbOp p => (set_canary_probability s p).2
  | Op.predictOp r f => (predict s r f).2
  | Op.statusOp => s

/-- The state after a sequence of operations. -/
def execOps (s : ServiceState) (ops : List Op) : ServiceState :=
  ops.foldl execOp s

/-- A concrete predictor used for witness states. -/
def probeModel : Model := ⟨fun _ => Except.ok [7]⟩

/-- A state with the current slot empty, the next slot loaded, and
probability 0 (always route to the candidate). -/
def cexState : ServiceState :=
  { initState with next_model := some probeModel
                   next_model_name := some "cand"
                   next_model_version := some "2"
                   canary_probability := 0 }

/-- A state with only the current slot loaded. -/
def soloState : ServiceState :=
  { initState with current_model := some probeModel
                   current_model_name := some "cur"
                   current_model_version := some "1" }

lemma predict_state_eq (s : ServiceState) (r : ℚ) (f : List (List ℚ)) :
    (predict s r f).2 = s := by
  unfold predict
  cases s.current_model with
  | none => rfl
  | some cm =>
    dsimp only
    split
    · rfl
    · cases s.next_model <;> rfl

lemma runModel_ne_noModelLoaded (m : Model) (label : String)
    (f : List (List ℚ)) : runModel m label f ≠ PredictResult.noModelLoaded := by
  unfold runModel
  cases m.predictor f <;> simp

lemma predict_next_empty (s : ServiceState) (cm : Model) (r : ℚ)
    (f : List (List ℚ)) (hn : s.next_model = none)
    (hc : s.current_model = some cm) :
    (predict s r f).1 = runModel cm (currentLabel s) f := by
  unfold predict
  rw [hc, hn]
  dsimp only
  split <;> rfl

/-- The state `accept_next_model` produces on success. -/
def promoted (s : ServiceState) (m : Model) : ServiceState :=
  { s with current_model := some m
           current_model_name := s.next_model_name
           current_model_version := s.next_model_version }

/-- C1: the claim asserts that `predict` follows the spec's routing steps,
in particular that a draw selecting the candidate slot uses the candidate
handle even when the current slot is empty.  Counterexample: in `cexState`
the current slot is empty, the candidate slot holds `probeModel`, and the
draw `r = 0` with probability `0` selects the candidate, so the specified
steps produce the candidate's prediction — but the code checks
`current_model is None` first and fails with "No current model loaded". -/
theorem C1_routing_counterexample :
    cexState.current_model = none ∧
    cexState.next_model = some probeModel ∧
    ¬ ((0 : ℚ) < cexState.canary_probability) ∧
    route_and_predict_spec cexState 0 [[1]] =
      PredictResult.ok [7] "next (cand v2)" ∧
    (predict cexState 0 [[1]]).1 = PredictResult.noModelLoaded :=
  ⟨rfl, rfl, by decide, rfl, rfl⟩

/-- C1 (amended): `predict` fails with `NoModelLoaded` exactly when the
current slot is empty — this check happens before the draw, so an empty
current slot fails even when the candidate holds a handle; whenever the
current slot is loaded, `predict` agrees with the spec's routing steps
(draw, read chosen slot, fall back to current when the candidate is
empty, invoke inference on the resulting handle). -/
theorem C1_routing_amended (s : ServiceState) (r : ℚ) (f : List (List ℚ)) :
    (s.current_model = none →
      (predict s r f).1 = PredictResult.noModelLoaded) ∧
    (s.current_model ≠ none →
      (predict s r f).1 = route_and_predict_spec s r f) := by
  constructor
  · intro h
    unfold predict
    rw [h]
  · intro h
    unfold predict route_and_predict_spec
    cases hc : s.current_model with
    | none => exact absurd hc h
    | some cm =>
      dsimp only
      split
      · rfl
      · cases s.next_model <;> rfl

/-- Witness for C1 (amended) at concrete states. -/
theorem C1_routing_amended_witness :
    (predict cexState 0 [[1]]).1 = PredictResult.noModelLoaded ∧
    (predict soloState 0 [[1]]).1 = route_and_predict_spec soloState 0 [[1]] :=
  ⟨(C1_routing_amended cexState 0 [[1]]).1 rfl,
   (C1_routing_amended soloState 0 [[1]]).2 (by simp [soloState, initState])⟩

/-- C2: `set_canary_probability` succeeds exactly when `0 ≤ p ≤ 1`; on
success the stored probability is `p` and `status` reports it; out of
range it fails and the state is unchanged. -/
theorem C2_set_probability (s : ServiceState) (p : ℚ) :
    (0 ≤ p ∧ p ≤ 1 →
      (set_canary_probability s p).1 = true ∧
      (set_canary_probability s p).2 = { s with canary_probability := p } ∧
      (status (set_canary_probability s p).2).canary_probability = p) ∧
    (¬ (0 ≤ p ∧ p ≤ 1) →
      (set_canary_probability s p).1 = false ∧
      (set_canary_probability s p).2 = s) := by
  unfold set_canary_probability
  constructor
  · intro h
    rw [if_pos h]
    exact ⟨rfl, rfl, rfl⟩
  · intro h
    rw [if_neg h]
    exact ⟨rfl, rfl⟩

/-- Witness for C2 at `p = 1/2` (in range) and `p = 2` (out of range). -/
theorem C2_set_probability_witness :
    ((set_canary_probability initState (1/2)).1 = true ∧
      (set_canary_probability initState (1/2)).2 =
        { initState with canary_probability := 1/2 } ∧
      (status (set_canary_probability initState (1/2)).2).canary_probability
        = 1/2) ∧
    ((set_canary_probability initState 2).1 = false ∧
      (set_canary_probability initState 2).2 = initState) :=
  ⟨(C2_set_probability initState (1/2)).1 (by norm_num),
   (C2_set_probability initState 2).2 (by norm_num)⟩

/-- C3: `accept_next_model` fails exactly when the next slot is empty;
on success it copies the next slot's model, name and version into the
current slot, does not clear the next slot, and afterwards both slots
reference the same handle. -/
theorem C3_promote (s : ServiceState) :
    (s.next_model = none →
      (accept_next_model s).1 = false ∧ (accept_next_model s).2 = s) ∧
    (∀ m, s.next_model = some m →
      (accept_next_model s).1 = true ∧
      (accept_next_model s).2 =
        { s with current_model := some m
                 current_model_name := s.next_model_name
                 current_model_version := s.next_model_version } ∧
      (accept_next_model s).2.next_model = s.next_model ∧
      (accept_next_model s).2.current_model =
        (accept_next_model s).2.next_model) := by
  unfold accept_next_model
  constructor
  · intro h
    rw [h]
    exact ⟨rfl, rfl⟩
  · intro m h
    rw [h]
    exact ⟨rfl, rfl, rfl, rfl⟩

/-- Witness for C3 at a state with an empty next slot and one with the
next slot loaded. -/
theorem C3_promote_witness :
    ((accept_next_model initState).1 = false ∧
      (accept_next_model initState).2 = initState) ∧
    ((accept_next_model cexState).1 = true ∧
      (accept_next_model cexState).2 =
        { cexState with current_model := some probeModel
                        current_model_name := cexState.next_model_name
                        current_model_version := cexState.next_model_version } ∧
      (accept_next_model cexState).2.next_model = cexState.next_model ∧
      (accept_next_model cexState).2.current_model =
        (accept_next_model cexState).2.next_model) :=
  ⟨(C3_promote initState).1 rfl, (C3_promote cexState).2 probeModel rfl⟩

/-- C4: when the loader fails (`res = none`), `load_model` returns
failure and the state — both slots and the probability — is exactly the
prior state; on loader success the target slot's model, name and version
are replaced together and nothing else changes. -/
theorem C4_load_frame (s : ServiceState) (n v t : String) (m : Model) :
    ((load_model s none n v t).1 = false ∧ (load_model s none n v t).2 = s) ∧
    (load_model s (some m) n v "current").2 =
      { s with current_model := some m
               current_model_name := some n
               current_model_version := some v } ∧
    (load_model s (some m) n v "next").2 =
      { s with next_model := some m
               next_model_name := some n
               next_model_version := some v } :=
  ⟨⟨rfl, rfl⟩, rfl, rfl⟩

/-- C5: with the next slot empty and the current slot loaded, every
`predict` call — for any probability and any draw — serves from the
current model and never fails with "No current model loaded". -/
theorem C5_fallback_current (s : ServiceState) (cm : Model) (r : ℚ)
    (f : List (List ℚ)) (hn : s.next_model = none)
    (hc : s.current_model = some cm) :
    (predict s r f).1 = runModel cm (currentLabel s) f ∧
    (predict s r f).1 ≠ PredictResult.noModelLoaded := by
  have h1 := predict_next_empty s cm r f hn hc
  exact ⟨h1, h1 ▸ runModel_ne_noModelLoaded cm (currentLabel s) f⟩

/-- Witness for C5 at `soloState`. -/
theorem C5_fallback_current_witness :
    (predict soloState 0 [[1]]).1 =
      runModel probeModel (currentLabel soloState) [[1]] ∧
    (predict soloState 0 [[1]]).1 ≠ PredictResult.noModelLoaded :=
  C5_fallback_current soloState probeModel 0 [[1]] rfl rfl

/-- C6: after one successful `accept_next_model`, a second call also
succeeds and leaves the state — both slots and the probability —
unchanged. -/
theorem C6_promote_idempotent (s : ServiceState)
    (h : (accept_next_model s).1 = true) :
    (accept_next_model (accept_next_model s).2).1 = true ∧
    (accept_next_model (accept_next_model s).2).2 =
      (accept_next_model s).2 := by
  cases hn : s.next_model with
  | none =>
    exfalso
    unfold accept_next_model at h
    rw [hn] at h
    exact Bool.false_ne_true h
  | some m =>
    have h2 : accept_next_model s = (true, promoted s m) := by
      unfold accept_next_model promoted
      rw [hn]
    rw [h2]
    unfold accept_next_model
    split
    next heq =>
      exfalso
      have h4 : s.next_model = none := heq
      rw [hn] at h4
      exact Option.noConfusion h4
    next m' heq =>
      have h4 : s.next_model = some m' := heq
      rw [hn] at h4
      injection h4 with h5
      subst h5
      exact ⟨rfl, rfl⟩

/-- Witness for C6 at `cexState`, where the next slot is loaded. -/
theorem C6_promote_idempotent_witness :
    (accept_next_model (accept_next_model cexState).2).1 = true ∧
    (accept_next_model (accept_next_model cexState).2).2 =
      (accept_next_model cexState).2 :=
  C6_promote_idempotent cexState rfl

/-- C7: `predict` never mutates the service state: for every input and
every outcome, the state after the call equals the state before it, and
hence `status` is unchanged. -/
theorem C7_predict_pure (s : ServiceState) (r : ℚ) (f : List (List ℚ)) :
    (predict s r f).2 = s ∧ status (predict s r f).2 = status s := by
  have h := predict_state_eq s r f
  exact ⟨h, by rw [h]⟩

/-- C10: when the startup load of the current slot succeeds but the load
into the next slot fails, `load_initial_models` reports failure, yet the
current slot is loaded and the next slot empty, and every subsequent
`predict` serves from the current model and never fails with "No current
model loaded". -/
theorem C10_partial_startup (m : Model) (n v : String) (r : ℚ)
    (f : List (List ℚ)) :
    (load_initial_models initState (some m) none n v).1 = false ∧
    (load_initial_models initState (some m) none n v).2.current_model
      = some m ∧
    (load_initial_models initState (some m) none n v).2.next_model = none ∧
    (predict (load_initial_models initState (some m) none n v).2 r f).1 =
      runModel m
        (currentLabel (load_initial_models initState (some m) none n v).2)
        f ∧
    (predict (load_initial_models initState (some m) none n v).2 r f).1 ≠
      PredictResult.noModelLoaded := by
  refine ⟨rfl, rfl, rfl, ?_, ?_⟩
  · exact predict_next_empty _ m r f rfl rfl
  · rw [predict_next_empty _ m r f rfl rfl]
    exact runModel_ne_noModelLoaded m _ f

lemma load_model_prob (s : ServiceState) (res : Option Model)
    (n v t : String) :
    ((load_model s res n v t).2).canary_probability
      = s.canary_probability := by
  unfold load_model
  cases res with
  | none => rfl
  | some m =>
    dsimp only
    split
    · rfl
    · split <;> rfl

lemma load_initial_prob (s : ServiceState) (r1 r2 : Option Model)
    (n v : String) :
    ((load_initial_models s r1 r2 n v).2).canary_probability
      = s.canary_probability := by
  unfold load_initial_models
  dsimp only
  rw [load_model_prob, load_model_prob]

lemma accept_prob (s : ServiceState) :
    ((accept_next_model s).2).canary_probability
      = s.canary_probability := by
  unfold accept_next_model
  cases s.next_model <;> rfl

lemma execOp_prob_inv (s : ServiceState) (op : Op)
    (h0 : 0 ≤ s.canary_probability) (h1 : s.canary_probability ≤ 1) :
    0 ≤ (execOp s op).canary_probability ∧
      (execOp s op).canary_probability ≤ 1 := by
  cases op with
  | loadModelOp res n v t =>
    simp only [execOp, load_model_prob]
    exact ⟨h0, h1⟩
  | loadInitialOp r1 r2 n v =>
    simp only [execOp, load_initial_prob]
    exact ⟨h0, h1⟩
  | acceptNextOp =>
    simp only [execOp, accept_prob]
    exact ⟨h0, h1⟩
  | setProbOp p =>
    simp only [execOp]
    unfold set_canary_probability
    split
    next h => exact ⟨h.1, h.2⟩
    next => exact ⟨h0, h1⟩
  | predictOp r f =>
    simp only [execOp, predict_state_eq]
    exact ⟨h0, h1⟩
  | statusOp => exact ⟨h0, h1⟩

lemma execOps_prob_inv (ops : List Op) : ∀ s : ServiceState,
    0 ≤ s.canary_probability → s.canary_probability ≤ 1 →
    0 ≤ (execOps s ops).canary_probability ∧
      (execOps s ops).canary_probability ≤ 1 := by
  induction ops with
  | nil => exact fun s h0 h1 => ⟨h0, h1⟩
  | cons op rest ih =>
    intro s h0 h1
    have h := execOp_prob_inv s op h0 h1
    exact ih _ h.1 h.2

/-- C8: the probability is 1 at construction, stays within `[0,1]` after
every sequence of operations, and no slot operation (`load_model`,
`load_initial_models`, `accept_next_model`) changes it. -/
theorem C8_probability_invariant :
    initState.canary_probability = 1 ∧
    (∀ ops : List Op,
      0 ≤ (execOps initState ops).canary_probability ∧
        (execOps initState ops).canary_probability ≤ 1) ∧
    (∀ (s : ServiceState) (res : Option Model) (n v t : String),
      ((load_model s res n v t).2).canary_probability
        = s.canary_probability) ∧
    (∀ (s : ServiceState) (r1 r2 : Option Model) (n v : String),
      ((load_initial_models s r1 r2 n v).2).canary_probability
        = s.canary_probability) ∧
    (∀ s : ServiceState,
      ((accept_next_model s).2).canary_probability
        = s.canary_probability) :=
  ⟨rfl,
   fun ops => execOps_prob_inv ops initState zero_le_one (le_refl 1),
   load_model_prob, load_initial_prob, accept_prob⟩

/-- Holds of an operation when every successful loader outcome it carries
satisfies `L` at the identity it was requested under ("this model was
loaded under this name and version"). -/
def LoadsRespect (L : Model → String → String → Prop) : Op → Prop
  | Op.loadModelOp res n v _ => ∀ m, res = some m → L m n v
  | Op.loadInitialOp r1 r2 n v =>
      (∀ m, r1 = some m → L m n v) ∧ (∀ m, r2 = some m → L m n v)
  | _ => True

/-- A slot keeps its handle and recorded identity paired: whenever the
slot holds a model, its name and version fields are set and name that
model's load identity. -/
def SlotPaired (L : Model → String → String → Prop)
    (model : Option Model) (name version : Option String) : Prop :=
  ∀ m, model = some m →
    ∃ n v, name = some n ∧ version = some v ∧ L m n v

/-- Both slots of a state are paired. -/
def Paired (L : Model → String → String → Prop) (s : ServiceState) : Prop :=
  SlotPaired L s.current_model s.current_model_name s.current_model_version ∧
  SlotPaired L s.next_model s.next_model_name s.next_model_version

lemma load_model_paired (L : Model → String → String → Prop)
    (s : ServiceState) (res : Option Model) (n v t : String)
    (hres : ∀ m, res = some m → L m n v) (hp : Paired L s) :
    Paired L (load_model s res n v t).2 := by
  cases res with
  | none => exact hp
  | some m =>
    have hm : L m n v := hres m rfl
    unfold load_model
    dsimp only
    split
    · refine ⟨?_, hp.2⟩
      intro m' hm'
      have h5 : some m = some m' := hm'
      injection h5 with h6
      subst h6
      exact ⟨n, v, rfl, rfl, hm⟩
    · split
      · refine ⟨hp.1, ?_⟩
        intro m' hm'
        have h5 : some m = some m' := hm'
        injection h5 with h6
        subst h6
        exact ⟨n, v, rfl, rfl, hm⟩
      · exact hp

lemma accept_paired (L : Model → String → String → Prop)
    (s : ServiceState) (hp : Paired L s) :
    Paired L (accept_next_model s).2 := by
  unfold accept_next_model
  split
  next => exact hp
  next m heq =>
    refine ⟨?_, hp.2⟩
    intro m' hm'
    have h5 : some m = some m' := hm'
    injection h5 with h6
    subst h6
    exact hp.2 m heq

lemma set_prob_paired (L : Model → String → String → Prop)
    (s : ServiceState) (p : ℚ) (hp : Paired L s) :
    Paired L (set_canary_probability s p).2 := by
  unfold set_canary_probability
  split
  · exact hp
  · exact hp

lemma execOp_paired (L : Model → String → String → Prop)
    (s : ServiceState) (op : Op)
    (hop : LoadsRespect L op) (hp : Paired L s) :
    Paired L (execOp s op) := by
  cases op with
  | loadModelOp res n v t => exact load_model_paired L s res n v t hop hp
  | loadInitialOp r1 r2 n v =>
    exact load_model_paired L _ r2 n v "next" hop.2
      (load_model_paired L s r1 n v "current" hop.1 hp)
  | acceptNextOp => exact accept_paired L s hp
  | setProbOp p => exact set_prob_paired L s p hp
  | predictOp r f =>
    show Paired L (predict s r f).2
    rw [predict_state_eq]
    exact hp
  | statusOp => exact hp

lemma execOps_paired (L : Model → String → String → Prop)
    (ops : List Op) : ∀ s : ServiceState,
    (∀ op ∈ ops, LoadsRespect L op) → Paired L s →
    Paired L (execOps s ops) := by
  induction ops with
  | nil => exact fun s _ hp => hp
  | cons op rest ih =>
    intro s hops hp
    exact ih _ (fun o ho => hops o (List.mem_cons_of_mem op ho))
      (execOp_paired L s op (hops op (List.mem_cons_self op rest)) hp)

/-- C9: every operation keeps each slot's handle paired with its recorded
identity: for any relation `L` such that each successful load in the
operation sequence yielded a model satisfying `L` at the requested name
and version, after any sequence of operations from the initial state,
whenever a slot holds a model, that slot's name and version fields are
set and satisfy `L` with that model — `load_model` writes model, name and
version together and `accept_next_model` copies all three together. -/
theorem C9_slot_identity_paired (L : Model → String → String → Prop)
    (ops : List Op) (h : ∀ op ∈ ops, LoadsRespect L op) :
    Paired L (execOps initState ops) := by
  refine execOps_paired L ops initState h ⟨?_, ?_⟩
  · intro m hm
    exact Option.noConfusion hm
  · intro m hm
    exact Option.noConfusion hm

/-- Witness for C9 on a one-load sequence. -/
theorem C9_slot_identity_paired_witness :
    Paired (fun _ n v => n = "m" ∧ v = "1")
      (execOps initState [Op.loadModelOp (some probeModel) "m" "1" "current"]) :=
  C9_slot_identity_paired (fun _ n v => n = "m" ∧ v = "1")
    [Op.loadModelOp (some probeModel) "m" "1" "current"]
    (by
      intro op hop
      rw [List.mem_singleton] at hop
      subst hop
      exact fun _ _ => ⟨rfl, rfl⟩)

end Canary
